import Mathlib

/-!
Shallow embedding of maracas/dataset.py: the Dataset registry (speech list,
noise and reverb dicts), the condition-generation driver generate_condition,
the top-level generate_dataset loop, and the per-file transform FileGenerator.
External collaborators (wavread, wavwrite, add_noise, add_reverb, glob,
recursive_glob, numpy random choice) are modelled as oracles, and filesystem
effects are recorded in an explicit event trace.
-/

/-- Python exception values raised by the code under study. The spec maps the
ValueError raised at the registration boundary to InvalidPathError and
InvalidArgumentError, the ValueError for an unknown noise name to
UnknownDistortionError, and a dictionary lookup miss stays a KeyError. -/
inductive PyErr : Type
| valueError (msg : String)
| keyError (key : String)
| typeError (msg : String)
deriving DecidableEq

/-- An SNR value as the Python code sees it: either a scalar, kept as its
textual form (which is all the folder-name formatting uses), or a tuple of
scalars (textual forms of the elements). -/
inductive Snr : Type
| scalar (r : String)
| tuple (elems : List String)
deriving DecidableEq

/-- Textual form of an SNR value as interpolated by the format call building
condition_name_snrdB; a Python tuple prints as (a, b) and a one-element tuple
prints as (a,). -/
def snrStr : Snr → String
| Snr.scalar r => r
| Snr.tuple es =>
  match es with
  | [e] => ("(") ++ e ++ (",)")
  | _ => ("(") ++ String.intercalate (", ") es ++ (")")

/-- The snrs argument of generate_condition and generate_dataset: either a
Python list of SNR values, or any other single value (a scalar or a tuple). -/
inductive SnrsArg : Type
| pylist (l : List Snr)
| single (v : Snr)
deriving DecidableEq

/-- Lines 78-79 and 117-118 of dataset.py: if type(snrs) is not list then
snrs = [snrs]; any non-list argument becomes a one-element list. -/
def coerceSnrs : SnrsArg → List Snr
| SnrsArg.pylist l => l
| SnrsArg.single v => [v]

/-- Filesystem events performed by the code: reading a wav file, creating a
directory, printing a warning, and writing a wav file (recording the sample
data and the sample rate passed to wavwrite). -/
inductive Event (α : Type) : Type
| read (path : String)
| mkdir (path : String)
| warn (msg : String)
| write (path : String) (data : α) (rate : Nat)
deriving DecidableEq

/-- os.path.join specialised to the plain relative components used here. -/
def joinPath (a b : String) : String := a ++ ("/") ++ b

/-- os.path.basename: the part after the last slash, computed by a fold that
restarts its accumulator at every slash. -/
def basename (p : String) : String :=
  String.mk (p.data.foldl (fun acc c => if c == ('/') then [] else acc ++ [c]) [])

/-- Root part of os.path.splitext applied to a slash-free name: drop the
extension starting at the last dot, unless every character before that dot is
a leading dot (Python keeps .bashrc whole). -/
def splitextRoot (b : String) : String :=
  let cs := b.data
  let lead := (cs.takeWhile (fun c => c == ('.'))).length
  let dotIdxs := (List.range cs.length).filter (fun i => cs.getD i (' ') == ('.'))
  match dotIdxs.getLast? with
  | some i => if lead < i then String.mk (cs.take i) else b
  | none => b

/-- A Python dict with string keys and string values, in insertion order. -/
abbrev Dict := List (String × String)

/-- Python d[k] = v: replace the value in place when the key is present,
otherwise append the new pair at the end. -/
def dictSet (d : Dict) (k v : String) : Dict :=
  if d.any (fun p => p.1 == k) then d.map (fun p => if p.1 == k then (k, v) else p)
  else d ++ [(k, v)]

/-- Python d[k] lookup; none when the key is missing. -/
def dictGet (d : Dict) (k : String) : Option String :=
  (d.find? (fun p => p.1 == k)).map Prod.snd

/-- Python d.keys() in insertion order. -/
def dictKeys (d : Dict) : List String := d.map Prod.fst

/-- Filesystem oracle for the discovery operations. -/
structure FS : Type where
  /-- os.path.isfile. -/
  isfile : String → Bool
  /-- os.path.isdir. -/
  isdir : String → Bool
  /-- The list returned by glob of the lowercase wav pattern in a directory
  (non-recursive). -/
  globLower : String → List String
  /-- The list returned by glob of the uppercase WAV pattern in a directory
  (non-recursive). -/
  globUpper : String → List String
  /-- Modelled from the spec: recursive_glob lives in maracas.utils, which is
  not among the given sources; per the spec it performs a full subtree walk of
  the directory and returns every file matching the lowercase wav pattern. -/
  rglobLower : String → List String
  /-- Modelled from the spec: recursive_glob of the uppercase WAV pattern over
  the full subtree of the directory. -/
  rglobUpper : String → List String

/-- Dataset.add_speech_files (dataset.py lines 24-38), with self.speech passed
in and returned; when the path is neither a file nor a directory the method
raises before any append, so the error case leaves the list unchanged. -/
def add_speech_files (fs : FS) (speech : List String) (path : String)
    (recursive : Bool) : Except PyErr (List String) :=
  if fs.isfile path then Except.ok (speech ++ [path])
  else if fs.isdir path then
    if recursive then Except.ok (speech ++ (fs.rglobLower path ++ fs.rglobUpper path))
    else Except.ok (speech ++ (fs.globLower path ++ fs.globUpper path))
  else Except.error (PyErr.valueError ("Path needs to point to an existing file/folder"))

/-- The name argument of _add_distortion_files: Python None, a single string,
or a list of strings. A tuple-typed name is outside the model; for every
modelled value the Python test type of name equals tuple is false, exactly as
it is for the values the claims exercise. -/
inductive NameArg : Type
| none
| str (s : String)
| list (l : List String)
deriving DecidableEq

/-- The Python test type of name equals list. -/
def nameIsList : NameArg → Bool
| NameArg.list _ => true
| _ => false

/-- The Python test type of name equals tuple; false for every modelled
value. -/
def nameIsTuple : NameArg → Bool
| _ => false

/-- len(name) for the list case. -/
def nameLen : NameArg → Nat
| NameArg.list l => l.length
| _ => 0

/-- The underlying list of names for the list case. -/
def nameList : NameArg → List String
| NameArg.list l => l
| _ => []

/-- Dataset._add_distortion_files (dataset.py lines 41-63), with the registry
dict passed in and returned. The guard on line 53 is written with an or
between type of name not equal to list and type of name not equal to tuple,
so it is true for every value of name, a list included; the length test on
line 55 and the zip registration on lines 60-61 are reachable only when name
is None, in which case the derived stem names are zipped with the files. -/
def _add_distortion_files (fs : FS) (path : String) (d : Dict) (name : NameArg) :
    Except PyErr Dict :=
  if fs.isfile path then
    match name with
    | NameArg.none => Except.ok (dictSet d (splitextRoot (basename path)) path)
    | NameArg.str s => Except.ok (dictSet d s path)
    | NameArg.list _ => Except.error (PyErr.typeError ("unhashable type: list"))
  else if fs.isdir path then
    let files := fs.globLower path ++ fs.globUpper path
    match name with
    | NameArg.none =>
      let names := files.map (fun f => splitextRoot (basename f))
      Except.ok ((names.zip files).foldl (fun acc p => dictSet acc p.1 p.2) d)
    | nm =>
      if !(nameIsList nm) || !(nameIsTuple nm) then
        Except.error (PyErr.valueError ("When path is a folder, name has to be a list or tuple with the same length as the number of distortion files in the folder."))
      else if nameLen nm ≠ files.length then
        Except.error (PyErr.valueError ("len(name) needs to be equal to len(files)"))
      else
        Except.ok (((nameList nm).zip files).foldl (fun acc p => dictSet acc p.1 p.2) d)
  else Except.error (PyErr.valueError ("Path needs to point to an existing file/folder"))

/-- Dataset.add_noise_files (dataset.py lines 66-67). -/
def add_noise_files (fs : FS) (noiseDict : Dict) (path : String) (name : NameArg) :
    Except PyErr Dict :=
  _add_distortion_files fs path noiseDict name

/-- Dataset.add_reverb_files (dataset.py lines 70-71). -/
def add_reverb_files (fs : FS) (reverbDict : Dict) (path : String) (name : NameArg) :
    Except PyErr Dict :=
  _add_distortion_files fs path reverbDict name

/-- Modelled from the spec: the external collaborators wavread, add_reverb and
add_noise (maracas.utils and the maracas package root, neither among the given
sources) are black boxes. wavread returns samples and a sample rate; the wav
data of a path and its rate are the two oracle components. add_reverb maps a
signal, an impulse response, a rate and the speech-energy mode to a signal;
add_noise additionally takes the target SNR and returns a pair whose first
component is the mixed signal, the only component the code uses. Sample data
has an abstract type. -/
structure Collab (α : Type) : Type where
  wavData : String → α
  wavRate : String → Nat
  addReverbFn : α → α → Nat → String → α
  addNoiseFn : α → α → Nat → Snr → String → α

/-- FileGenerator construction (dataset.py lines 129-137). -/
structure FileGenerator (α : Type) : Type where
  n : α
  r : Option α
  snr : Snr
  output_dir : String
  condition_name : String
  speech_energy : String

/-- FileGenerator call (dataset.py lines 139-146): read the speech file,
apply reverb when present, add noise at the target SNR, and write the result
to output_dir/condition_name_snrdB/basename of the input, at the sample rate
fs that wavread returned for the input speech file. The value is the event
trace of one call. -/
def FileGenerator.call {α : Type} (c : Collab α) (g : FileGenerator α)
    (f : String) : List (Event α) :=
  let x := c.wavData f
  let fs := c.wavRate f
  let x2 := match g.r with
    | some rw => c.addReverbFn x rw fs g.speech_energy
    | none => x
  let y := c.addNoiseFn x2 g.n fs g.snr g.speech_energy
  [Event.read f,
   Event.write (joinPath g.output_dir (joinPath (g.condition_name ++ ("_") ++ snrStr g.snr ++ ("dB")) (basename f))) y fs]

/-- The per-SNR condition folder paths (dataset.py line 96):
output_dir/condition_name_snrdB for each snr in the list. -/
def conditionFolders (output_dir condition_name : String) (snrsList : List Snr) :
    List String :=
  snrsList.map (fun s => joinPath output_dir (condition_name ++ ("_") ++ snrStr s ++ ("dB")))

/-- The folder-creation step (dataset.py lines 94-98): one try block around
the whole loop of os.mkdir calls. Directories are created in order until one
already exists; that os.mkdir raises OSError, which the single except catches,
printing a warning and abandoning the rest of the loop. Returns the directory
set afterwards, the list of directories actually created, and whether the
warning was printed. -/
def mkdirFolders : List String → List String → List String × List String × Bool
| existing, [] => (existing, [], false)
| existing, f :: rest =>
  if existing.contains f then (existing, [], true)
  else
    let t := mkdirFolders (existing ++ [f]) rest
    (t.1, f :: t.2.1, t.2.2)

/-- Lines 83-88 of generate_condition: when a reverb name is given, read its
waveform from the reverb dict (a missing name raises KeyError at the plain
dictionary lookup) and build the condition name reverb_noise; with no reverb
the condition name is the noise name and nothing is read. -/
def resolveReverb {α : Type} (c : Collab α) (reverbDict : Dict) (noise : String) :
    Option String → Except PyErr (Option α × String × List (Event α))
| some rv =>
  match dictGet reverbDict rv with
  | none => Except.error (PyErr.keyError rv)
  | some rpath =>
    Except.ok (some (c.wavData rpath), rv ++ ("_") ++ noise, [Event.read rpath])
| none => Except.ok (none, noise, [])

/-- One iteration body of the SNR loop (dataset.py lines 100-114): select the
speech files, either all of them or a numpy choice without replacement of
files_per_condition many (the choice oracle is indexed by the snr of the
iteration), then apply a fresh FileGenerator to each selected file. Returns
the selected files and the concatenated event trace, or the exception numpy
raised. -/
def snrHandler {α : Type} (c : Collab α)
    (choice : Snr → List String → Nat → Except PyErr (List String))
    (speech : List String) (files_per_condition : Option Nat) (n : α)
    (r : Option α) (output_dir condition_name speech_energy : String) (s : Snr) :
    Except PyErr (List String × List (Event α)) :=
  match files_per_condition with
  | some m => (choice s speech m).map (fun sel =>
      (sel, sel.flatMap (FileGenerator.call c
        ⟨n, r, s, output_dir, condition_name, speech_energy⟩)))
  | none => Except.ok (speech, speech.flatMap (FileGenerator.call c
      ⟨n, r, s, output_dir, condition_name, speech_energy⟩))

/-- The SNR loop itself: run the handler on each snr in order, accumulating
the per-SNR selected files and the event trace; an exception stops the loop
and is reported. -/
def runSnrs {α : Type} (h : Snr → Except PyErr (List String × List (Event α))) :
    List Snr → List (Snr × List String) × List (Event α) × Option PyErr
| [] => ([], [], none)
| s :: rest =>
  match h s with
  | Except.error e => ([], [], some e)
  | Except.ok (sel, evs) =>
    let t := runSnrs h rest
    ((s, sel) :: t.1, evs ++ t.2.1, t.2.2)

/-- Observable outcome of generate_condition: the event trace, the speech
files processed for each SNR in loop order, the directories existing
afterwards, and the exception if one was raised. -/
structure GCResult (α : Type) : Type where
  trace : List (Event α)
  perSnr : List (Snr × List String)
  dirsAfter : List String
  err : Option PyErr
deriving DecidableEq

/-- Body of generate_condition after the noise check and reverb resolution
(dataset.py lines 90-114): create the output directory when absent, run the
folder-creation step, then run the SNR loop. The worker pool branch maps the
same FileGenerator over the same files as the sequential branch, so the model
follows the sequential branch. -/
def generate_condition_core {α : Type} (c : Collab α)
    (choice : Snr → List String → Nat → Except PyErr (List String))
    (speech : List String) (dirs : List String) (snrsList : List Snr)
    (noisePath : String) (r : Option α) (condition_name : String)
    (revEvents : List (Event α)) (output_dir : String)
    (files_per_condition : Option Nat) (speech_energy : String) : GCResult α :=
  let dirs1 := if dirs.contains output_dir then dirs else dirs ++ [output_dir]
  let outEvents : List (Event α) :=
    if dirs.contains output_dir then [] else [Event.mkdir output_dir]
  let md := mkdirFolders dirs1 (conditionFolders output_dir condition_name snrsList)
  let warnEvents : List (Event α) :=
    if md.2.2 then [Event.warn ("Condition folder already exists!")] else []
  let run := runSnrs (snrHandler c choice speech files_per_condition
    (c.wavData noisePath) r output_dir condition_name speech_energy) snrsList
  { trace := [Event.read noisePath] ++ revEvents ++ outEvents ++
      md.2.1.map Event.mkdir ++ warnEvents ++ run.2.1,
    perSnr := run.1, dirsAfter := md.1, err := run.2.2 }

/-- Dataset.generate_condition (dataset.py lines 74-114), with the Dataset
fields (speech list, noise dict, reverb dict), the set of existing
directories, and the external collaborators passed explicitly. Line 75 checks
membership of the noise name before any filesystem access; line 81 reads the
noise waveform; lines 83-88 resolve the reverb; the rest is the core. -/
def generate_condition {α : Type} (c : Collab α)
    (choice : Snr → List String → Nat → Except PyErr (List String))
    (speech : List String) (noiseDict reverbDict : Dict) (dirs : List String)
    (snrs : SnrsArg) (noise : String) (output_dir : String)
    (reverb : Option String) (files_per_condition : Option Nat)
    (speech_energy : String) : GCResult α :=
  match dictGet noiseDict noise with
  | none =>
    { trace := [], perSnr := [], dirsAfter := dirs,
      err := some (PyErr.valueError ("noise not in dataset")) }
  | some noisePath =>
    match resolveReverb c reverbDict noise reverb with
    | Except.error e =>
      { trace := [Event.read noisePath], perSnr := [], dirsAfter := dirs,
        err := some e }
    | Except.ok (r, condition_name, revEvents) =>
      generate_condition_core c choice speech dirs (coerceSnrs snrs) noisePath r
        condition_name revEvents output_dir files_per_condition speech_energy

/-- Dataset.generate_dataset (dataset.py lines 116-126): the loop iterates
itertools.product of the reverb dict keys and the noise dict keys, invoking
generate_condition once per pair with the reverb of the pair; the value is the
list of (reverb, noise) pairs passed, in loop order. -/
def generate_dataset_calls (reverbDict noiseDict : Dict) : List (String × String) :=
  (dictKeys reverbDict).flatMap (fun rv => (dictKeys noiseDict).map (fun nz => (rv, nz)))

/-- Projection selecting write events with their path and sample rate. -/
def writeProj {α : Type} : Event α → Option (String × Nat)
| Event.write p _ r => some (p, r)
| _ => none

/-- The paths and sample rates of the write events of a trace, in order. -/
def writePathsRates {α : Type} (evs : List (Event α)) : List (String × Nat) :=
  evs.filterMap writeProj

/-- Modelled from the spec: contract of numpy.random.choice with
replace=False, an external collaborator. Given a population and a requested
size within the population size, it returns that many elements drawn without
replacement, so at pairwise distinct positions: the result has the requested
length, every element belongs to the population, and it has no duplicates
whenever the population has none; a size exceeding the population raises
ValueError. The Snr argument indexes the draw made in each SNR iteration. -/
def ChoiceSpec (choice : Snr → List String → Nat → Except PyErr (List String)) :
    Prop :=
  ∀ s l m,
    (m ≤ l.length → ∃ out, choice s l m = Except.ok out ∧ out.length = m ∧
      (∀ x ∈ out, x ∈ l) ∧ (l.Nodup → out.Nodup)) ∧
    (l.length < m → ∃ msg, choice s l m = Except.error (PyErr.valueError msg))

/-- A concrete sampler satisfying the numpy choice contract: take the first m
elements, raise ValueError when m exceeds the population size. -/
def takeChoice : Snr → List String → Nat → Except PyErr (List String) :=
  fun _ l m =>
    if m ≤ l.length then Except.ok (l.take m)
    else Except.error (PyErr.valueError ("Cannot take a larger sample than population when replace is False"))

/-- A concrete collaborator oracle over trivial sample data, used to evaluate
the model at concrete inputs. -/
def unitCollab : Collab Unit :=
  { wavData := fun _ => (), wavRate := fun _ => 8000,
    addReverbFn := fun x _ _ _ => x, addNoiseFn := fun x _ _ _ _ => x }

/-- A concrete filesystem: two single wav files, and a directory d holding
x.wav and y.wav plus Z.WAV, with one more wav file in a subdirectory that only
the recursive walk finds. -/
def fsDemo : FS :=
  { isfile := fun p => p == ("s/a.wav") || p == ("n/white.wav"),
    isdir := fun p => p == ("d"),
    globLower := fun p => if p == ("d") then [("d/x.wav"), ("d/y.wav")] else [],
    globUpper := fun p => if p == ("d") then [("d/Z.WAV")] else [],
    rglobLower := fun p => if p == ("d") then [("d/x.wav"), ("d/y.wav"), ("d/sub/q.wav")] else [],
    rglobUpper := fun p => if p == ("d") then [("d/Z.WAV")] else [] }

theorem find?_cons_pos' {α : Type} (p : α → Bool) (a : α) (l : List α)
    (h : p a = true) : (a :: l).find? p = some a :=
  List.find?_cons_of_pos l h

theorem find?_cons_neg' {α : Type} (p : α → Bool) (a : α) (l : List α)
    (h : p a = false) : (a :: l).find? p = l.find? p :=
  List.find?_cons_of_neg l (by simp [h])

theorem find?_map_set (d : Dict) (k v : String)
    (h : d.any (fun p => p.1 == k) = true) :
    (d.map (fun p => if p.1 == k then (k, v) else p)).find? (fun p => p.1 == k) =
      some (k, v) := by
  induction d with
  | nil => simp at h
  | cons p t ih =>
    by_cases hp : p.1 = k
    · have hb : (p.1 == k) = true := beq_iff_eq.mpr hp
      rw [List.map_cons, if_pos hb,
        find?_cons_pos' (fun q => q.1 == k) (k, v) _ (beq_self_eq_true k)]
    · have hb : (p.1 == k) = false := beq_eq_false_iff_ne.mpr hp
      rw [List.any_cons, hb, Bool.false_or] at h
      rw [List.map_cons, if_neg (by simp [hb]),
        find?_cons_neg' (fun q => q.1 == k) p _ hb]
      exact ih h

theorem find?_map_other (d : Dict) (k v k' : String) (h : k' ≠ k) :
    (d.map (fun p => if p.1 == k then (k, v) else p)).find? (fun p => p.1 == k') =
      d.find? (fun p => p.1 == k') := by
  have hkb : (k == k') = false := beq_eq_false_iff_ne.mpr (Ne.symm h)
  induction d with
  | nil => rfl
  | cons p t ih =>
    by_cases hp : p.1 = k
    · have hb : (p.1 == k) = true := beq_iff_eq.mpr hp
      have hpb : (p.1 == k') = false := by rw [hp]; exact hkb
      rw [List.map_cons, if_pos hb,
        find?_cons_neg' (fun q => q.1 == k') (k, v) _ hkb,
        find?_cons_neg' (fun q => q.1 == k') p t hpb]
      exact ih
    · have hb : (p.1 == k) = false := beq_eq_false_iff_ne.mpr hp
      by_cases hq : p.1 = k'
      · have hqb : (p.1 == k') = true := beq_iff_eq.mpr hq
        rw [List.map_cons, if_neg (by simp [hb]),
          find?_cons_pos' (fun q => q.1 == k') p _ hqb,
          find?_cons_pos' (fun q => q.1 == k') p t hqb]
      · have hqb : (p.1 == k') = false := beq_eq_false_iff_ne.mpr hq
        rw [List.map_cons, if_neg (by simp [hb]),
          find?_cons_neg' (fun q => q.1 == k') p _ hqb,
          find?_cons_neg' (fun q => q.1 == k') p t hqb]
        exact ih

theorem dictGet_dictSet_self (d : Dict) (k v : String) :
    dictGet (dictSet d k v) k = some v := by
  unfold dictGet dictSet
  by_cases hc : d.any (fun p => p.1 == k) = true
  · rw [if_pos hc, find?_map_set d k v hc]
    rfl
  · have hcf : d.any (fun p => p.1 == k) = false := Bool.eq_false_iff.mpr hc
    rw [if_neg hc]
    have hnone : d.find? (fun p => p.1 == k) = none := by
      rw [List.find?_eq_none]
      intro p hp
      have := List.any_eq_false.mp hcf p hp
      simpa using this
    rw [List.find?_append, hnone, Option.none_or]
    simp

theorem dictGet_dictSet_other (d : Dict) (k v k' : String) (h : k' ≠ k) :
    dictGet (dictSet d k v) k' = dictGet d k' := by
  unfold dictGet dictSet
  by_cases hc : d.any (fun p => p.1 == k) = true
  · rw [if_pos hc, find?_map_other d k v k' h]
  · rw [if_neg hc, List.find?_append]
    have hsing : List.find? (fun p => p.1 == k') [(k, v)] = none := by
      simp [List.find?_singleton, Ne.symm h]
    rw [hsing, Option.or_none]

theorem dictKeys_dictSet_nodup (d : Dict) (k v : String)
    (h : (dictKeys d).Nodup) : (dictKeys (dictSet d k v)).Nodup := by
  unfold dictKeys dictSet
  by_cases hc : d.any (fun p => p.1 == k) = true
  · rw [if_pos hc, List.map_map]
    have hmap : d.map (Prod.fst ∘ fun p => if p.1 == k then (k, v) else p) =
        d.map Prod.fst := by
      apply List.map_congr_left
      intro p _
      by_cases hp : p.1 = k
      · simp [beq_iff_eq.mpr hp, hp]
      · simp [beq_eq_false_iff_ne.mpr hp, hp]
    rw [hmap]
    exact h
  · have hcf : d.any (fun p => p.1 == k) = false := Bool.eq_false_iff.mpr hc
    rw [if_neg hc, List.map_append, List.nodup_append]
    have hk : k ∉ d.map Prod.fst := by
      intro hmem
      obtain ⟨p, hp, hpk⟩ := List.mem_map.mp hmem
      have := List.any_eq_false.mp hcf p hp
      simp [hpk] at this
    refine ⟨h, by simp, ?_⟩
    intro a ha hb
    simp only [List.map_cons, List.map_nil, List.mem_singleton] at hb
    subst hb
    exact hk ha

/-- C7: for every path argument to the speech-adding operation: an existing
file is appended alone to the speech set; an existing directory contributes
exactly the lowercase and uppercase wav matches, taken from the directory
itself when recursive is false and from the full subtree walk when recursive
is true; any other path fails with the InvalidPathError ValueError, and no
new speech list is produced, so the speech set is unchanged. -/
theorem C7_add_speech_files (fs : FS) (speech : List String) (path : String) :
    (fs.isfile path = true → ∀ recursive,
      add_speech_files fs speech path recursive = Except.ok (speech ++ [path])) ∧
    (fs.isfile path = false → fs.isdir path = true →
      add_speech_files fs speech path false =
        Except.ok (speech ++ (fs.globLower path ++ fs.globUpper path)) ∧
      add_speech_files fs speech path true =
        Except.ok (speech ++ (fs.rglobLower path ++ fs.rglobUpper path))) ∧
    (fs.isfile path = false → fs.isdir path = false → ∀ recursive,
      add_speech_files fs speech path recursive =
        Except.error (PyErr.valueError ("Path needs to point to an existing file/folder"))) := by
  refine ⟨?_, ?_, ?_⟩
  · intro h1 recursive
    simp [add_speech_files, h1]
  · intro h1 h2
    exact ⟨by simp [add_speech_files, h1, h2], by simp [add_speech_files, h1, h2]⟩
  · intro h1 h2 recursive
    simp [add_speech_files, h1, h2]

/-- C7 witness: the theorem evaluated on the concrete filesystem fsDemo for a
single file, a directory without and with recursion, and a missing path. -/
theorem C7_add_speech_files_witness :
    add_speech_files fsDemo [] ("s/a.wav") false = Except.ok [("s/a.wav")] ∧
    add_speech_files fsDemo [] ("d") false =
      Except.ok [("d/x.wav"), ("d/y.wav"), ("d/Z.WAV")] ∧
    add_speech_files fsDemo [] ("d") true =
      Except.ok [("d/x.wav"), ("d/y.wav"), ("d/sub/q.wav"), ("d/Z.WAV")] ∧
    add_speech_files fsDemo [] ("missing") true =
      Except.error (PyErr.valueError ("Path needs to point to an existing file/folder")) := by
  refine ⟨?_, ?_, ?_, ?_⟩
  · exact (C7_add_speech_files fsDemo [] ("s/a.wav")).1 (by decide) false
  · exact ((C7_add_speech_files fsDemo [] ("d")).2.1 (by decide) (by decide)).1
  · exact ((C7_add_speech_files fsDemo [] ("d")).2.1 (by decide) (by decide)).2
  · exact (C7_add_speech_files fsDemo [] ("missing")).2.2 (by decide) (by decide) true

/-- C8: registering a single existing file as a distortion source with no
explicit name produces the registry obtained by dict assignment under the
file stem, the base name without its extension; and dict assignment silently
overwrites: the assigned key maps to the new path, every other key is
untouched, and the key list stays duplicate-free, so the registry keeps
exactly one path per name. -/
theorem C8_single_file_registration :
    (∀ (fs : FS) (path : String) (d : Dict), fs.isfile path = true →
      _add_distortion_files fs path d NameArg.none =
        Except.ok (dictSet d (splitextRoot (basename path)) path)) ∧
    (∀ (d : Dict) (k v : String), dictGet (dictSet d k v) k = some v) ∧
    (∀ (d : Dict) (k v k' : String), k' ≠ k →
      dictGet (dictSet d k v) k' = dictGet d k') ∧
    (∀ (d : Dict) (k v : String),
      (dictKeys d).Nodup → (dictKeys (dictSet d k v)).Nodup) := by
  refine ⟨?_, dictGet_dictSet_self, dictGet_dictSet_other, dictKeys_dictSet_nodup⟩
  intro fs path d h
  simp [_add_distortion_files, h]

/-- C8 witness: the theorem evaluated concretely: the file n/white.wav with no
name registers under the stem white, and a second registration under the same
key overwrites the first path while keeping one entry. -/
theorem C8_single_file_registration_witness :
    _add_distortion_files fsDemo ("n/white.wav") [] NameArg.none =
      Except.ok [(("white"), ("n/white.wav"))] ∧
    dictGet (dictSet [(("white"), ("old.wav"))] ("white") ("new.wav")) ("white") =
      some ("new.wav") ∧
    dictGet (dictSet [(("white"), ("old.wav"))] ("white") ("new.wav")) ("pink") =
      dictGet [(("white"), ("old.wav"))] ("pink") ∧
    (dictKeys (dictSet [(("white"), ("old.wav"))] ("white") ("new.wav"))).Nodup := by
  refine ⟨?_, ?_, ?_, ?_⟩
  · have h1 := C8_single_file_registration.1 fsDemo ("n/white.wav") [] (by decide)
    have h2 : Except.ok (dictSet [] (splitextRoot (basename ("n/white.wav"))) ("n/white.wav")) =
        (Except.ok [(("white"), ("n/white.wav"))] : Except PyErr Dict) := by rfl
    exact h1.trans h2
  · exact C8_single_file_registration.2.1 [(("white"), ("old.wav"))] ("white") ("new.wav")
  · exact C8_single_file_registration.2.2.1 [(("white"), ("old.wav"))] ("white") ("new.wav") ("pink") (by decide)
  · exact C8_single_file_registration.2.2.2 [(("white"), ("old.wav"))] ("white") ("new.wav") (by decide)

/-- C1: evaluating the code at the failing input. The directory d holds three
discovered wav files and the explicit name list has the matching length
three, yet the registration fails with the has-to-be-a-list-or-tuple
ValueError: the guard on line 53 of dataset.py joins type of name not equal
to list and type of name not equal to tuple with or, which is true for every
value of name, so the length check it documents (and the zip registration
after it) is unreachable for any explicit name. The spec says this call
succeeds with three entries keyed x, y, z. -/
theorem C1_code_eval :
    _add_distortion_files fsDemo ("d") [] (NameArg.list [("x"), ("y"), ("z")]) =
      Except.error (PyErr.valueError ("When path is a folder, name has to be a list or tuple with the same length as the number of distortion files in the folder.")) := by
  rfl

/-- C2 counterexample: with an empty reverb registry and a noise registry
holding the single name white, generate_dataset makes zero generate_condition
invocations, not one per registered noise name as the claim states: the
cross product with the empty reverb key list is empty. -/
theorem C2_counterexample :
    generate_dataset_calls [] [(("white"), ("n/w.wav"))] = [] ∧
    dictKeys [(("white"), ("n/w.wav"))] = [("white")] ∧
    (generate_dataset_calls [] [(("white"), ("n/w.wav"))]).length ≠
      (dictKeys [(("white"), ("n/w.wav"))]).length := by
  exact ⟨rfl, rfl, by decide⟩

/-- C2 amended: generate_dataset invokes generate_condition exactly once per
pair of the cross product of the reverb registry keys and the noise registry
keys, each call carrying the reverb name of its pair; an empty reverb
registry therefore yields zero invocations (the no-reverb case is never
produced by generate_dataset), and an empty noise registry likewise yields
zero invocations. -/
theorem C2_cross_product :
    (∀ reverbDict noiseDict : Dict,
      generate_dataset_calls reverbDict noiseDict =
        (dictKeys reverbDict) ×ˢ (dictKeys noiseDict)) ∧
    (∀ noiseDict : Dict, generate_dataset_calls [] noiseDict = []) ∧
    (∀ reverbDict : Dict, generate_dataset_calls reverbDict [] = []) ∧
    (∀ reverbDict noiseDict : Dict,
      (generate_dataset_calls reverbDict noiseDict).length =
        (dictKeys reverbDict).length * (dictKeys noiseDict).length) := by
  have hprod : ∀ reverbDict noiseDict : Dict,
      generate_dataset_calls reverbDict noiseDict =
        (dictKeys reverbDict) ×ˢ (dictKeys noiseDict) := by
    intro rd nd
    rfl
  refine ⟨hprod, ?_, ?_, ?_⟩
  · intro nd
    rfl
  · intro rd
    rw [hprod]
    exact List.product_nil (dictKeys rd)
  · intro rd nd
    rw [hprod, List.length_product]

/-- C10: an snrs argument whose type is not exactly list is wrapped whole in
a singleton list by generate_condition and generate_dataset; in particular a
tuple of several SNR values stays one single SNR, producing one condition
folder whose name interpolates the textual form of the whole tuple, never one
folder per element. -/
theorem C10_snrs_coercion :
    (∀ v : Snr, coerceSnrs (SnrsArg.single v) = [v]) ∧
    (∀ l : List Snr, coerceSnrs (SnrsArg.pylist l) = l) ∧
    (∀ (es : List String) (output_dir condition_name : String),
      conditionFolders output_dir condition_name
          (coerceSnrs (SnrsArg.single (Snr.tuple es))) =
        [joinPath output_dir (condition_name ++ ("_") ++ snrStr (Snr.tuple es) ++ ("dB"))]) ∧
    snrStr (Snr.tuple [("5"), ("10")]) = ("(5, 10)") ∧
    conditionFolders ("out") ("white") (coerceSnrs (SnrsArg.single (Snr.tuple [("5"), ("10")]))) =
      [("out/white_(5, 10)dB")] := by
  exact ⟨fun v => rfl, fun l => rfl, fun es od cn => rfl, rfl, by decide⟩

theorem runSnrs_ok_all {α : Type}
    (h : Snr → Except PyErr (List String × List (Event α)))
    (g : Snr → List String × List (Event α)) (snrs : List Snr)
    (hh : ∀ s ∈ snrs, h s = Except.ok (g s)) :
    runSnrs h snrs =
      (snrs.map (fun s => (s, (g s).1)), snrs.flatMap (fun s => (g s).2), none) := by
  induction snrs with
  | nil => rfl
  | cons s rest ih =>
    have hs := hh s (List.mem_cons_self s rest)
    have hrest : ∀ x ∈ rest, h x = Except.ok (g x) :=
      fun x hx => hh x (List.mem_cons_of_mem s hx)
    simp only [runSnrs, hs, ih hrest, List.map_cons, List.flatMap_cons]

theorem runSnrs_exists_ok {α : Type} (P : List String → Prop)
    (h : Snr → Except PyErr (List String × List (Event α))) (snrs : List Snr)
    (hh : ∀ s ∈ snrs, ∃ sel evs, h s = Except.ok (sel, evs) ∧ P sel) :
    (runSnrs h snrs).2.2 = none ∧
    (runSnrs h snrs).1.map Prod.fst = snrs ∧
    ∀ p ∈ (runSnrs h snrs).1, P p.2 := by
  induction snrs with
  | nil => exact ⟨rfl, rfl, fun p hp => absurd hp (List.not_mem_nil p)⟩
  | cons s rest ih =>
    obtain ⟨sel, evs, hok, hP⟩ := hh s (List.mem_cons_self s rest)
    have hrest := ih (fun x hx => hh x (List.mem_cons_of_mem s hx))
    simp only [runSnrs, hok]
    refine ⟨hrest.1, ?_, ?_⟩
    · simp only [List.map_cons]
      rw [hrest.2.1]
    · intro p hp
      rcases List.mem_cons.mp hp with hp1 | hp2
      · subst hp1
        exact hP
      · exact hrest.2.2 p hp2

theorem runSnrs_error_head {α : Type}
    (h : Snr → Except PyErr (List String × List (Event α)))
    (s : Snr) (rest : List Snr) (e : PyErr) (he : h s = Except.error e) :
    runSnrs h (s :: rest) = ([], [], some e) := by
  simp only [runSnrs, he]

theorem mkdirFolders_all_new (existing folders : List String)
    (hnew : ∀ f ∈ folders, f ∉ existing) (hnd : folders.Nodup) :
    mkdirFolders existing folders = (existing ++ folders, folders, false) := by
  induction folders generalizing existing with
  | nil => simp [mkdirFolders]
  | cons f rest ih =>
    have hf : f ∉ existing := hnew f (List.mem_cons_self f rest)
    have hcont : existing.contains f = false := by
      simp [hf]
    have hnew' : ∀ g ∈ rest, g ∉ existing ++ [f] := by
      intro g hg
      rw [List.mem_append, List.mem_singleton]
      rintro (hg1 | hg2)
      · exact hnew g (List.mem_cons_of_mem f hg) hg1
      · subst hg2
        exact (List.nodup_cons.mp hnd).1 hg
    have hnd' : rest.Nodup := (List.nodup_cons.mp hnd).2
    simp only [mkdirFolders, hcont, Bool.false_eq_true, if_neg, ih (existing ++ [f]) hnew' hnd']
    simp

theorem mkdirFolders_hits (existing pre : List String) (f : String)
    (rest : List String) (hnew : ∀ g ∈ pre, g ∉ existing) (hnd : pre.Nodup)
    (hf : f ∈ existing ++ pre) :
    mkdirFolders existing (pre ++ f :: rest) = (existing ++ pre, pre, true) := by
  induction pre generalizing existing with
  | nil =>
    have hfe : f ∈ existing := by simpa using hf
    have hcont : existing.contains f = true := by
      simp [hfe]
    simp [mkdirFolders, hcont, hfe]
  | cons g pre' ih =>
    have hg : g ∉ existing := hnew g (List.mem_cons_self g pre')
    have hcont : existing.contains g = false := by
      simp [hg]
    have hnew' : ∀ x ∈ pre', x ∉ existing ++ [g] := by
      intro x hx
      rw [List.mem_append, List.mem_singleton]
      rintro (hx1 | hx2)
      · exact hnew x (List.mem_cons_of_mem g hx) hx1
      · subst hx2
        exact (List.nodup_cons.mp hnd).1 hx
    have hnd' : pre'.Nodup := (List.nodup_cons.mp hnd).2
    have hf' : f ∈ (existing ++ [g]) ++ pre' := by
      rw [List.append_assoc, List.singleton_append]
      exact hf
    rw [List.cons_append]
    simp only [mkdirFolders, hcont, Bool.false_eq_true, if_neg,
      ih (existing ++ [g]) hnew' hnd' hf']
    simp

theorem generate_condition_resolved {α : Type} (c : Collab α)
    (choice : Snr → List String → Nat → Except PyErr (List String))
    (speech : List String) (noiseDict reverbDict : Dict) (dirs : List String)
    (snrs : SnrsArg) (noise : String) (output_dir : String)
    (reverb : Option String) (files_per_condition : Option Nat)
    (speech_energy : String) (np : String) (rOpt : Option α) (cname : String)
    (rEvs : List (Event α))
    (hnp : dictGet noiseDict noise = some np)
    (hres : resolveReverb c reverbDict noise reverb = Except.ok (rOpt, cname, rEvs)) :
    generate_condition c choice speech noiseDict reverbDict dirs snrs noise
        output_dir reverb files_per_condition speech_energy =
      generate_condition_core c choice speech dirs (coerceSnrs snrs) np rOpt
        cname rEvs output_dir files_per_condition speech_energy := by
  simp only [generate_condition, hnp, hres]

theorem generate_condition_core_err {α : Type} (c : Collab α)
    (choice : Snr → List String → Nat → Except PyErr (List String))
    (speech : List String) (dirs : List String) (snrsList : List Snr)
    (np : String) (rOpt : Option α) (cname : String) (rEvs : List (Event α))
    (output_dir : String) (files_per_condition : Option Nat)
    (speech_energy : String) :
    (generate_condition_core c choice speech dirs snrsList np rOpt cname rEvs
        output_dir files_per_condition speech_energy).err =
      (runSnrs (snrHandler c choice speech files_per_condition (c.wavData np)
        rOpt output_dir cname speech_energy) snrsList).2.2 := rfl

theorem generate_condition_core_perSnr {α : Type} (c : Collab α)
    (choice : Snr → List String → Nat → Except PyErr (List String))
    (speech : List String) (dirs : List String) (snrsList : List Snr)
    (np : String) (rOpt : Option α) (cname : String) (rEvs : List (Event α))
    (output_dir : String) (files_per_condition : Option Nat)
    (speech_energy : String) :
    (generate_condition_core c choice speech dirs snrsList np rOpt cname rEvs
        output_dir files_per_condition speech_energy).perSnr =
      (runSnrs (snrHandler c choice speech files_per_condition (c.wavData np)
        rOpt output_dir cname speech_energy) snrsList).1 := rfl

/-- C4: generate_condition with a noise name that is not a key of the noise
registry fails with the ValueError noise not in dataset (the error the spec
names UnknownDistortionError), and its event trace is empty and the directory
set unchanged: no directory is created and no file is read or written before
the failure. -/
theorem C4_unknown_noise {α : Type} (c : Collab α)
    (choice : Snr → List String → Nat → Except PyErr (List String))
    (speech : List String) (noiseDict reverbDict : Dict) (dirs : List String)
    (snrs : SnrsArg) (noise : String) (output_dir : String)
    (reverb : Option String) (files_per_condition : Option Nat)
    (speech_energy : String)
    (hmiss : dictGet noiseDict noise = none) :
    generate_condition c choice speech noiseDict reverbDict dirs snrs noise
        output_dir reverb files_per_condition speech_energy =
      { trace := [], perSnr := [], dirsAfter := dirs,
        err := some (PyErr.valueError ("noise not in dataset")) } := by
  simp only [generate_condition, hmiss]

/-- C4 witness: the theorem evaluated at a concrete call whose noise name
white is absent from the empty noise registry. -/
theorem C4_unknown_noise_witness :
    generate_condition unitCollab takeChoice [("s/a.wav")] [] [] [("out")]
        (SnrsArg.pylist [Snr.scalar ("0")]) ("white") ("out") none none ("P.56") =
      { trace := [], perSnr := [], dirsAfter := [("out")],
        err := some (PyErr.valueError ("noise not in dataset")) } :=
  C4_unknown_noise unitCollab takeChoice [("s/a.wav")] [] [] [("out")]
    (SnrsArg.pylist [Snr.scalar ("0")]) ("white") ("out") none none ("P.56") rfl

/-- C9: generate_condition called with a registered noise and a reverb name
that is not a key of the reverb registry performs no dedicated reverb
validation: it fails with the plain dictionary-lookup KeyError for that
reverb name, an error distinct from the ValueError used for an unknown noise,
and only after the noise waveform has already been read from disk, as the
single read event of the trace records; no directory is touched. -/
theorem C9_unregistered_reverb {α : Type} (c : Collab α)
    (choice : Snr → List String → Nat → Except PyErr (List String))
    (speech : List String) (noiseDict reverbDict : Dict) (dirs : List String)
    (snrs : SnrsArg) (noise : String) (output_dir : String) (rv : String)
    (files_per_condition : Option Nat) (speech_energy : String) (np : String)
    (hnp : dictGet noiseDict noise = some np)
    (hrv : dictGet reverbDict rv = none) :
    generate_condition c choice speech noiseDict reverbDict dirs snrs noise
        output_dir (some rv) files_per_condition speech_energy =
      { trace := [Event.read np], perSnr := [], dirsAfter := dirs,
        err := some (PyErr.keyError rv) } ∧
    ∀ msg, PyErr.keyError rv ≠ PyErr.valueError msg := by
  constructor
  · simp only [generate_condition, hnp, resolveReverb, hrv]
  · intro msg h
    exact PyErr.noConfusion h

/-- C9 witness: the theorem evaluated at a concrete call with the registered
noise white and the unregistered reverb room1: the trace holds exactly the
noise read and the error is the KeyError for room1. -/
theorem C9_unregistered_reverb_witness :
    generate_condition unitCollab takeChoice [("s/a.wav")]
        [(("white"), ("n/w.wav"))] [] [("out")]
        (SnrsArg.pylist [Snr.scalar ("0")]) ("white") ("out") (some ("room1"))
        none ("P.56") =
      { trace := [Event.read ("n/w.wav")], perSnr := [], dirsAfter := [("out")],
        err := some (PyErr.keyError ("room1")) } ∧
    ∀ msg, PyErr.keyError ("room1") ≠ PyErr.valueError msg :=
  C9_unregistered_reverb unitCollab takeChoice [("s/a.wav")]
    [(("white"), ("n/w.wav"))] [] [("out")] (SnrsArg.pylist [Snr.scalar ("0")])
    ("white") ("out") ("room1") none ("P.56") ("n/w.wav") rfl rfl

/-- C3 counterexample: with SNR list [0, 10] and the subfolder of the earlier
SNR 0 already existing, the subfolder of SNR 10 does not exist after the
call: it is not in the resulting directory set and no mkdir event for it
appears in the trace, even though the run proceeds without error; so it is
false that every SNR subfolder exists after the folder-creation step when an
earlier SNR subfolder already existed. -/
theorem C3_counterexample :
    ("out/white_10dB") ∉ (generate_condition unitCollab takeChoice [("s/a.wav")]
      [(("white"), ("n/w.wav"))] [] [("out"), ("out/white_0dB")]
      (SnrsArg.pylist [Snr.scalar ("0"), Snr.scalar ("10")]) ("white") ("out")
      none none ("P.56")).dirsAfter ∧
    Event.mkdir ("out/white_10dB") ∉ (generate_condition unitCollab takeChoice
      [("s/a.wav")] [(("white"), ("n/w.wav"))] [] [("out"), ("out/white_0dB")]
      (SnrsArg.pylist [Snr.scalar ("0"), Snr.scalar ("10")]) ("white") ("out")
      none none ("P.56")).trace ∧
    (generate_condition unitCollab takeChoice [("s/a.wav")]
      [(("white"), ("n/w.wav"))] [] [("out"), ("out/white_0dB")]
      (SnrsArg.pylist [Snr.scalar ("0"), Snr.scalar ("10")]) ("white") ("out")
      none none ("P.56")).err = none := by
  refine ⟨by decide, by decide, by decide⟩

/-- C3 amended: condition folders are created in list order inside one try
block. When no folder of the list pre-exists and the folder names are
pairwise distinct, every folder is created and no warning is printed; when a
folder of the list already exists (in the filesystem or earlier in the same
list), creation stops right there: exactly the folders before it have been
created, the warning is printed, no later folder is created, and the
generation call itself still proceeds without raising. -/
theorem C3_folder_creation :
    (∀ existing folders : List String, (∀ f ∈ folders, f ∉ existing) →
      folders.Nodup →
      mkdirFolders existing folders = (existing ++ folders, folders, false)) ∧
    (∀ (existing pre : List String) (f : String) (rest : List String),
      (∀ g ∈ pre, g ∉ existing) → pre.Nodup → f ∈ existing ++ pre →
      mkdirFolders existing (pre ++ f :: rest) = (existing ++ pre, pre, true)) ∧
    (∀ {α : Type} (c : Collab α)
      (choice : Snr → List String → Nat → Except PyErr (List String))
      (speech : List String) (noiseDict reverbDict : Dict) (dirs : List String)
      (snrs : SnrsArg) (noise output_dir speech_energy np : String),
      dictGet noiseDict noise = some np →
      (generate_condition c choice speech noiseDict reverbDict dirs snrs noise
        output_dir none none speech_energy).err = none) := by
  refine ⟨mkdirFolders_all_new, mkdirFolders_hits, ?_⟩
  intro α c choice speech noiseDict reverbDict dirs snrs noise output_dir se np hnp
  rw [generate_condition_resolved c choice speech noiseDict reverbDict dirs snrs
    noise output_dir none none se np none noise [] hnp rfl,
    generate_condition_core_err,
    runSnrs_ok_all (snrHandler c choice speech none (c.wavData np) none output_dir noise se)
      (fun s => (speech, speech.flatMap (FileGenerator.call c
        ⟨c.wavData np, none, s, output_dir, noise, se⟩)))
      (coerceSnrs snrs) (fun s _ => rfl)]

/-- C3 witness: the amended theorem evaluated concretely: a fresh run creates
both folders without warning; a run whose first folder pre-exists creates
nothing further and warns; and the pre-existing-folder call finishes without
error. -/
theorem C3_folder_creation_witness :
    mkdirFolders [("out")] [("out/white_0dB"), ("out/white_10dB")] =
      ([("out"), ("out/white_0dB"), ("out/white_10dB")],
        [("out/white_0dB"), ("out/white_10dB")], false) ∧
    mkdirFolders [("out"), ("out/white_0dB")]
        [("out/white_0dB"), ("out/white_10dB")] =
      ([("out"), ("out/white_0dB")], [], true) ∧
    (generate_condition unitCollab takeChoice [("s/b.wav")]
      [(("white"), ("n/w.wav"))] [] [("out"), ("out/white_0dB")]
      (SnrsArg.pylist [Snr.scalar ("0"), Snr.scalar ("10")]) ("white") ("out")
      none none ("P.56")).err = none := by
  refine ⟨?_, ?_, ?_⟩
  · exact C3_folder_creation.1 [("out")] [("out/white_0dB"), ("out/white_10dB")]
      (by decide) (by decide)
  · exact C3_folder_creation.2.1 [("out"), ("out/white_0dB")] [] ("out/white_0dB")
      [("out/white_10dB")] (by decide) (by decide) (by decide)
  · exact C3_folder_creation.2.2 unitCollab takeChoice [("s/b.wav")]
      [(("white"), ("n/w.wav"))] [] [("out"), ("out/white_0dB")]
      (SnrsArg.pylist [Snr.scalar ("0"), Snr.scalar ("10")]) ("white") ("out")
      ("P.56") ("n/w.wav") rfl

theorem takeChoice_spec : ChoiceSpec takeChoice := by
  intro s l m
  constructor
  · intro hm
    refine ⟨l.take m, ?_, ?_, ?_, ?_⟩
    · simp [takeChoice, hm]
    · simp [List.length_take, Nat.min_eq_left hm]
    · intro x hx
      exact List.mem_of_mem_take hx
    · intro hnd
      exact (List.take_sublist m l).nodup hnd
  · intro hm
    refine ⟨("Cannot take a larger sample than population when replace is False"), ?_⟩
    simp [takeChoice, Nat.not_le.mpr hm]

/-- C5: with a registered noise, a resolved reverb argument and a sampling
oracle satisfying the numpy choice contract: when files_per_condition is m
and m is at most the speech set size, the call succeeds and for every SNR of
the coerced list exactly m speech files are processed, drawn from the speech
set and pairwise distinct whenever the speech set is duplicate-free, so no
file is processed twice within one SNR; when m exceeds the speech set size
and there is at least one SNR, the call fails with the numpy ValueError; and
when files_per_condition is omitted every SNR processes the full registered
speech set. -/
theorem C5_files_per_condition :
    (∀ {α : Type} (c : Collab α)
      (choice : Snr → List String → Nat → Except PyErr (List String))
      (speech : List String) (noiseDict reverbDict : Dict) (dirs : List String)
      (snrs : SnrsArg) (noise output_dir : String) (reverb : Option String)
      (speech_energy np : String) (rOpt : Option α) (cname : String)
      (rEvs : List (Event α)) (m : Nat),
      ChoiceSpec choice → dictGet noiseDict noise = some np →
      resolveReverb c reverbDict noise reverb = Except.ok (rOpt, cname, rEvs) →
      speech.Nodup → m ≤ speech.length →
      (generate_condition c choice speech noiseDict reverbDict dirs snrs noise
          output_dir reverb (some m) speech_energy).err = none ∧
      (generate_condition c choice speech noiseDict reverbDict dirs snrs noise
          output_dir reverb (some m) speech_energy).perSnr.map Prod.fst =
        coerceSnrs snrs ∧
      ∀ p ∈ (generate_condition c choice speech noiseDict reverbDict dirs snrs
          noise output_dir reverb (some m) speech_energy).perSnr,
        p.2.length = m ∧ p.2.Nodup ∧ ∀ f ∈ p.2, f ∈ speech) ∧
    (∀ {α : Type} (c : Collab α)
      (choice : Snr → List String → Nat → Except PyErr (List String))
      (speech : List String) (noiseDict reverbDict : Dict) (dirs : List String)
      (snrs : SnrsArg) (noise output_dir : String) (reverb : Option String)
      (speech_energy np : String) (rOpt : Option α) (cname : String)
      (rEvs : List (Event α)) (m : Nat) (s : Snr) (rest : List Snr),
      ChoiceSpec choice → dictGet noiseDict noise = some np →
      resolveReverb c reverbDict noise reverb = Except.ok (rOpt, cname, rEvs) →
      speech.length < m → coerceSnrs snrs = s :: rest →
      ∃ msg, (generate_condition c choice speech noiseDict reverbDict dirs snrs
          noise output_dir reverb (some m) speech_energy).err =
        some (PyErr.valueError msg)) ∧
    (∀ {α : Type} (c : Collab α)
      (choice : Snr → List String → Nat → Except PyErr (List String))
      (speech : List String) (noiseDict reverbDict : Dict) (dirs : List String)
      (snrs : SnrsArg) (noise output_dir : String) (reverb : Option String)
      (speech_energy np : String) (rOpt : Option α) (cname : String)
      (rEvs : List (Event α)),
      dictGet noiseDict noise = some np →
      resolveReverb c reverbDict noise reverb = Except.ok (rOpt, cname, rEvs) →
      (generate_condition c choice speech noiseDict reverbDict dirs snrs noise
          output_dir reverb none speech_energy).err = none ∧
      (generate_condition c choice speech noiseDict reverbDict dirs snrs noise
          output_dir reverb none speech_energy).perSnr =
        (coerceSnrs snrs).map (fun s => (s, speech))) := by
  refine ⟨?_, ?_, ?_⟩
  · intro α c choice speech noiseDict reverbDict dirs snrs noise output_dir
      reverb se np rOpt cname rEvs m hch hnp hres hnd hm
    rw [generate_condition_resolved c choice speech noiseDict reverbDict dirs
      snrs noise output_dir reverb (some m) se np rOpt cname rEvs hnp hres,
      generate_condition_core_err, generate_condition_core_perSnr]
    have hrun := runSnrs_exists_ok
      (fun sel => sel.length = m ∧ sel.Nodup ∧ ∀ f ∈ sel, f ∈ speech)
      (snrHandler c choice speech (some m) (c.wavData np) rOpt output_dir cname se)
      (coerceSnrs snrs) ?_
    · exact ⟨hrun.1, hrun.2.1, hrun.2.2⟩
    · intro s _
      obtain ⟨out, hok, hlen, hmem, hnodup⟩ := (hch s speech m).1 hm
      refine ⟨out, out.flatMap (FileGenerator.call c
        ⟨c.wavData np, rOpt, s, output_dir, cname, se⟩), ?_, hlen, hnodup hnd, hmem⟩
      simp only [snrHandler, hok, Except.map]
  · intro α c choice speech noiseDict reverbDict dirs snrs noise output_dir
      reverb se np rOpt cname rEvs m s rest hch hnp hres hm hsnrs
    rw [generate_condition_resolved c choice speech noiseDict reverbDict dirs
      snrs noise output_dir reverb (some m) se np rOpt cname rEvs hnp hres,
      generate_condition_core_err, hsnrs]
    obtain ⟨msg, herr⟩ := (hch s speech m).2 hm
    have hhandler : snrHandler c choice speech (some m) (c.wavData np) rOpt
        output_dir cname se s = Except.error (PyErr.valueError msg) := by
      simp only [snrHandler, herr, Except.map]
    rw [runSnrs_error_head _ s rest _ hhandler]
    exact ⟨msg, rfl⟩
  · intro α c choice speech noiseDict reverbDict dirs snrs noise output_dir
      reverb se np rOpt cname rEvs hnp hres
    rw [generate_condition_resolved c choice speech noiseDict reverbDict dirs
      snrs noise output_dir reverb none se np rOpt cname rEvs hnp hres,
      generate_condition_core_err, generate_condition_core_perSnr,
      runSnrs_ok_all (snrHandler c choice speech none (c.wavData np) rOpt
        output_dir cname se)
        (fun s => (speech, speech.flatMap (FileGenerator.call c
          ⟨c.wavData np, rOpt, s, output_dir, cname, se⟩)))
        (coerceSnrs snrs) (fun s _ => rfl)]
    exact ⟨rfl, rfl⟩

/-- C5 witness: the theorem evaluated concretely over a three-file speech
set: sampling two files per SNR succeeds with two distinct registered files,
requesting five fails with the numpy ValueError, and omitting the cap
processes the whole speech set. -/
theorem C5_files_per_condition_witness :
    ((generate_condition unitCollab takeChoice
        [("s/a.wav"), ("s/b.wav"), ("s/c.wav")] [(("white"), ("n/w.wav"))] []
        [] (SnrsArg.pylist [Snr.scalar ("0")]) ("white") ("out") none (some 2)
        ("P.56")).err = none ∧
      (generate_condition unitCollab takeChoice
        [("s/a.wav"), ("s/b.wav"), ("s/c.wav")] [(("white"), ("n/w.wav"))] []
        [] (SnrsArg.pylist [Snr.scalar ("0")]) ("white") ("out") none (some 2)
        ("P.56")).perSnr.map Prod.fst =
        coerceSnrs (SnrsArg.pylist [Snr.scalar ("0")]) ∧
      ∀ p ∈ (generate_condition unitCollab takeChoice
        [("s/a.wav"), ("s/b.wav"), ("s/c.wav")] [(("white"), ("n/w.wav"))] []
        [] (SnrsArg.pylist [Snr.scalar ("0")]) ("white") ("out") none (some 2)
        ("P.56")).perSnr,
        p.2.length = 2 ∧ p.2.Nodup ∧
          ∀ f ∈ p.2, f ∈ [("s/a.wav"), ("s/b.wav"), ("s/c.wav")]) ∧
    (∃ msg, (generate_condition unitCollab takeChoice
        [("s/a.wav"), ("s/b.wav"), ("s/c.wav")] [(("white"), ("n/w.wav"))] []
        [] (SnrsArg.single (Snr.scalar ("0"))) ("white") ("out") none (some 5)
        ("P.56")).err = some (PyErr.valueError msg)) ∧
    ((generate_condition unitCollab takeChoice
        [("s/a.wav"), ("s/b.wav"), ("s/c.wav")] [(("white"), ("n/w.wav"))] []
        [] (SnrsArg.pylist [Snr.scalar ("0")]) ("white") ("out") none none
        ("P.56")).err = none ∧
      (generate_condition unitCollab takeChoice
        [("s/a.wav"), ("s/b.wav"), ("s/c.wav")] [(("white"), ("n/w.wav"))] []
        [] (SnrsArg.pylist [Snr.scalar ("0")]) ("white") ("out") none none
        ("P.56")).perSnr =
        (coerceSnrs (SnrsArg.pylist [Snr.scalar ("0")])).map
          (fun s => (s, [("s/a.wav"), ("s/b.wav"), ("s/c.wav")]))) := by
  refine ⟨?_, ?_, ?_⟩
  · exact C5_files_per_condition.1 unitCollab takeChoice
      [("s/a.wav"), ("s/b.wav"), ("s/c.wav")] [(("white"), ("n/w.wav"))] [] []
      (SnrsArg.pylist [Snr.scalar ("0")]) ("white") ("out") none ("P.56")
      ("n/w.wav") none ("white") [] 2 takeChoice_spec rfl rfl (by decide)
      (by decide)
  · exact C5_files_per_condition.2.1 unitCollab takeChoice
      [("s/a.wav"), ("s/b.wav"), ("s/c.wav")] [(("white"), ("n/w.wav"))] [] []
      (SnrsArg.single (Snr.scalar ("0"))) ("white") ("out") none ("P.56")
      ("n/w.wav") none ("white") [] 5 (Snr.scalar ("0")) [] takeChoice_spec rfl
      rfl (by decide) rfl
  · exact C5_files_per_condition.2.2 unitCollab takeChoice
      [("s/a.wav"), ("s/b.wav"), ("s/c.wav")] [(("white"), ("n/w.wav"))] [] []
      (SnrsArg.pylist [Snr.scalar ("0")]) ("white") ("out") none ("P.56")
      ("n/w.wav") none ("white") [] rfl rfl

theorem writePathsRates_append {α : Type} (l1 l2 : List (Event α)) :
    writePathsRates (l1 ++ l2) = writePathsRates l1 ++ writePathsRates l2 :=
  List.filterMap_append l1 l2 writeProj

theorem writePathsRates_call {α : Type} (c : Collab α) (g : FileGenerator α)
    (f : String) :
    writePathsRates (FileGenerator.call c g f) =
      [(joinPath g.output_dir (joinPath (g.condition_name ++ ("_") ++
        snrStr g.snr ++ ("dB")) (basename f)), c.wavRate f)] := rfl

theorem writePathsRates_map_mkdir {α : Type} (l : List String) :
    writePathsRates (l.map (Event.mkdir) : List (Event α)) = [] := by
  unfold writePathsRates
  rw [List.filterMap_map]
  exact List.filterMap_eq_nil_iff.mpr (fun a _ => rfl)

theorem writePathsRates_flatMap_call {α : Type} (c : Collab α)
    (g : FileGenerator α) (speech : List String) :
    writePathsRates (speech.flatMap (FileGenerator.call c g)) =
      speech.map (fun f => (joinPath g.output_dir (joinPath
        (g.condition_name ++ ("_") ++ snrStr g.snr ++ ("dB")) (basename f)),
        c.wavRate f)) := by
  induction speech with
  | nil => rfl
  | cons f t ih =>
    rw [List.flatMap_cons, writePathsRates_append, writePathsRates_call, ih,
      List.map_cons, List.singleton_append]

theorem writePathsRates_run_none {α : Type} (c : Collab α)
    (choice : Snr → List String → Nat → Except PyErr (List String))
    (speech : List String) (n : α) (rOpt : Option α)
    (output_dir cname se : String) (snrsList : List Snr) :
    writePathsRates ((runSnrs (snrHandler c choice speech none n rOpt
        output_dir cname se) snrsList).2.1) =
      snrsList.flatMap (fun s => speech.map (fun f =>
        (joinPath output_dir (joinPath (cname ++ ("_") ++ snrStr s ++ ("dB"))
          (basename f)), c.wavRate f))) := by
  induction snrsList with
  | nil => rfl
  | cons s rest ih =>
    have hs : snrHandler c choice speech none n rOpt output_dir cname se s =
        Except.ok (speech, speech.flatMap (FileGenerator.call c
          ⟨n, rOpt, s, output_dir, cname, se⟩)) := rfl
    simp only [runSnrs, hs, List.flatMap_cons]
    rw [writePathsRates_append,
      writePathsRates_flatMap_call c ⟨n, rOpt, s, output_dir, cname, se⟩ speech,
      ih]

theorem generate_condition_core_trace {α : Type} (c : Collab α)
    (choice : Snr → List String → Nat → Except PyErr (List String))
    (speech : List String) (dirs : List String) (snrsList : List Snr)
    (np : String) (rOpt : Option α) (cname : String) (rEvs : List (Event α))
    (output_dir : String) (files_per_condition : Option Nat)
    (speech_energy : String) :
    (generate_condition_core c choice speech dirs snrsList np rOpt cname rEvs
        output_dir files_per_condition speech_energy).trace =
      [Event.read np] ++ rEvs ++
        (if dirs.contains output_dir then [] else [Event.mkdir output_dir]) ++
        (mkdirFolders (if dirs.contains output_dir then dirs else dirs ++ [output_dir])
          (conditionFolders output_dir cname snrsList)).2.1.map Event.mkdir ++
        (if (mkdirFolders (if dirs.contains output_dir then dirs else dirs ++ [output_dir])
          (conditionFolders output_dir cname snrsList)).2.2 then
          [Event.warn ("Condition folder already exists!")] else []) ++
        (runSnrs (snrHandler c choice speech files_per_condition (c.wavData np)
          rOpt output_dir cname speech_energy) snrsList).2.1 := rfl

theorem writePathsRates_core_none {α : Type} (c : Collab α)
    (choice : Snr → List String → Nat → Except PyErr (List String))
    (speech : List String) (dirs : List String) (snrsList : List Snr)
    (np : String) (rOpt : Option α) (cname : String) (rEvs : List (Event α))
    (output_dir : String) (speech_energy : String)
    (hrev : writePathsRates rEvs = []) :
    writePathsRates ((generate_condition_core c choice speech dirs snrsList np
        rOpt cname rEvs output_dir none speech_energy).trace) =
      snrsList.flatMap (fun s => speech.map (fun f =>
        (joinPath output_dir (joinPath (cname ++ ("_") ++ snrStr s ++ ("dB"))
          (basename f)), c.wavRate f))) := by
  rw [generate_condition_core_trace, writePathsRates_append,
    writePathsRates_append, writePathsRates_append, writePathsRates_append,
    writePathsRates_append, hrev, writePathsRates_map_mkdir,
    writePathsRates_run_none]
  have h1 : writePathsRates ([Event.read np] : List (Event α)) = [] := rfl
  have h2 : writePathsRates ((if dirs.contains output_dir then []
      else [Event.mkdir output_dir]) : List (Event α)) = [] := by
    split
    · rfl
    · rfl
  have h3 : writePathsRates ((if (mkdirFolders (if dirs.contains output_dir
      then dirs else dirs ++ [output_dir]) (conditionFolders output_dir cname
      snrsList)).2.2 then [Event.warn ("Condition folder already exists!")]
      else []) : List (Event α)) = [] := by
    split <;> split <;> rfl
  rw [h1, h2, h3]
  simp

/-- C6: the condition name is reverb_noise when a reverb name is given and
noise alone otherwise (first two conjuncts, read off the reverb resolution),
every single per-file transform writes exactly one file at
output_dir/condition_name_snrdB/basename of the speech file at the sample
rate read from that speech file (third conjunct), and a full generation call
(all speech files, with or without reverb) writes exactly those paths and
rates for every SNR of the list and every registered speech file (last two
conjuncts). -/
theorem C6_condition_name_and_paths :
    (∀ {α : Type} (c : Collab α) (reverbDict : Dict) (noise rv rp : String),
      dictGet reverbDict rv = some rp →
      resolveReverb c reverbDict noise (some rv) =
        Except.ok (some (c.wavData rp), rv ++ ("_") ++ noise, [Event.read rp])) ∧
    (∀ {α : Type} (c : Collab α) (reverbDict : Dict) (noise : String),
      resolveReverb c reverbDict noise none = Except.ok (none, noise, [])) ∧
    (∀ {α : Type} (c : Collab α) (g : FileGenerator α) (f : String),
      writePathsRates (FileGenerator.call c g f) =
        [(joinPath g.output_dir (joinPath (g.condition_name ++ ("_") ++
          snrStr g.snr ++ ("dB")) (basename f)), c.wavRate f)]) ∧
    (∀ {α : Type} (c : Collab α)
      (choice : Snr → List String → Nat → Except PyErr (List String))
      (speech : List String) (noiseDict reverbDict : Dict) (dirs : List String)
      (snrs : SnrsArg) (noise output_dir speech_energy np rv rp : String),
      dictGet noiseDict noise = some np → dictGet reverbDict rv = some rp →
      writePathsRates ((generate_condition c choice speech noiseDict reverbDict
          dirs snrs noise output_dir (some rv) none speech_energy).trace) =
        (coerceSnrs snrs).flatMap (fun s => speech.map (fun f =>
          (joinPath output_dir (joinPath ((rv ++ ("_") ++ noise) ++ ("_") ++
            snrStr s ++ ("dB")) (basename f)), c.wavRate f)))) ∧
    (∀ {α : Type} (c : Collab α)
      (choice : Snr → List String → Nat → Except PyErr (List String))
      (speech : List String) (noiseDict reverbDict : Dict) (dirs : List String)
      (snrs : SnrsArg) (noise output_dir speech_energy np : String),
      dictGet noiseDict noise = some np →
      writePathsRates ((generate_condition c choice speech noiseDict reverbDict
          dirs snrs noise output_dir none none speech_energy).trace) =
        (coerceSnrs snrs).flatMap (fun s => speech.map (fun f =>
          (joinPath output_dir (joinPath (noise ++ ("_") ++ snrStr s ++ ("dB"))
            (basename f)), c.wavRate f)))) := by
  refine ⟨?_, ?_, ?_, ?_, ?_⟩
  · intro α c reverbDict noise rv rp hrv
    simp only [resolveReverb, hrv]
  · intro α c reverbDict noise
    rfl
  · intro α c g f
    exact writePathsRates_call c g f
  · intro α c choice speech noiseDict reverbDict dirs snrs noise output_dir
      se np rv rp hnp hrv
    rw [generate_condition_resolved c choice speech noiseDict reverbDict dirs
      snrs noise output_dir (some rv) none se np (some (c.wavData rp))
      (rv ++ ("_") ++ noise) [Event.read rp] hnp
      (by simp only [resolveReverb, hrv]),
      writePathsRates_core_none c choice speech dirs (coerceSnrs snrs) np
      (some (c.wavData rp)) (rv ++ ("_") ++ noise) [Event.read rp] output_dir
      se rfl]
  · intro α c choice speech noiseDict reverbDict dirs snrs noise output_dir
      se np hnp
    rw [generate_condition_resolved c choice speech noiseDict reverbDict dirs
      snrs noise output_dir none none se np none noise [] hnp rfl,
      writePathsRates_core_none c choice speech dirs (coerceSnrs snrs) np
      none noise [] output_dir se rfl]

/-- C6 witness: the theorem evaluated concretely: with reverb room1 and noise
white the condition name is room1_white; a call at SNR 5 with reverb writes
exactly out/room1_white_5dB/a.wav at the rate 8000 the oracle reads for the
speech file, and a call without reverb at SNRs 0 and 10 writes exactly
out/white_0dB/a.wav and out/white_10dB/a.wav at that rate. -/
theorem C6_condition_name_and_paths_witness :
    resolveReverb unitCollab [(("room1"), ("r/r1.wav"))] ("white")
        (some ("room1")) =
      Except.ok (some (unitCollab.wavData ("r/r1.wav")),
        ("room1") ++ ("_") ++ ("white"), [Event.read ("r/r1.wav")]) ∧
    resolveReverb unitCollab [] ("white") none =
      Except.ok (none, ("white"), []) ∧
    writePathsRates (FileGenerator.call unitCollab
        ⟨(), none, Snr.scalar ("5"), ("out"), ("white"), ("P.56")⟩
        ("s/a.wav")) = [(("out/white_5dB/a.wav"), 8000)] ∧
    writePathsRates ((generate_condition unitCollab takeChoice [("s/a.wav")]
        [(("white"), ("n/w.wav"))] [(("room1"), ("r/r1.wav"))] []
        (SnrsArg.pylist [Snr.scalar ("5")]) ("white") ("out") (some ("room1"))
        none ("P.56")).trace) = [(("out/room1_white_5dB/a.wav"), 8000)] ∧
    writePathsRates ((generate_condition unitCollab takeChoice [("s/a.wav")]
        [(("white"), ("n/w.wav"))] [] []
        (SnrsArg.pylist [Snr.scalar ("0"), Snr.scalar ("10")]) ("white")
        ("out") none none ("P.56")).trace) =
      [(("out/white_0dB/a.wav"), 8000), (("out/white_10dB/a.wav"), 8000)] := by
  refine ⟨?_, ?_, ?_, ?_, ?_⟩
  · exact C6_condition_name_and_paths.1 unitCollab [(("room1"), ("r/r1.wav"))]
      ("white") ("room1") ("r/r1.wav") rfl
  · exact C6_condition_name_and_paths.2.1 unitCollab [] ("white")
  · have h := C6_condition_name_and_paths.2.2.1 unitCollab
      ⟨(), none, Snr.scalar ("5"), ("out"), ("white"), ("P.56")⟩ ("s/a.wav")
    exact h.trans (by rfl)
  · have h := C6_condition_name_and_paths.2.2.2.1 unitCollab takeChoice
      [("s/a.wav")] [(("white"), ("n/w.wav"))] [(("room1"), ("r/r1.wav"))] []
      (SnrsArg.pylist [Snr.scalar ("5")]) ("white") ("out") ("P.56")
      ("n/w.wav") ("room1") ("r/r1.wav") rfl rfl
    exact h.trans (by rfl)
  · have h := C6_condition_name_and_paths.2.2.2.2 unitCollab takeChoice
      [("s/a.wav")] [(("white"), ("n/w.wav"))] [] []
      (SnrsArg.pylist [Snr.scalar ("0"), Snr.scalar ("10")]) ("white") ("out")
      ("P.56") ("n/w.wav") rfl
    exact h.trans (by rfl)
